import Mathlib

/-!
Verification development for the mini-crm orders feature.

The embedding models three pieces of the repository:

* the `OrdersService` create/update payload construction
  (`libs/data-access/src/lib/services/auth.service.ts`), which computes the
  derived totals `totalHt` and `totalTtc` before sending a request;
* the signal-based orders store
  (`libs/feature-orders/src/lib/store/orders-signal-store.ts`), modelled as a
  small-step transition system over an explicit state that carries, besides the
  four visible fields (`orders`, `loading`, `error`, `selectedOrder`), the
  per-lane in-flight bookkeeping induced by the rxjs operators: `exhaustMap`
  lanes for `addOrder` / `updateOrder` / `deleteOrder` / `selectOrder` (one
  `Option` slot each, a new call being dropped while the slot is occupied) and
  a `switchMap` lane for `loadOrders` (a ticket counter: a response is applied
  only if its ticket is still the current one, which models the unsubscription
  of a superseded inner observable).  Because every method pipes `tapResponse`
  outside its flattening operator, an inner API error propagates past the
  operator and permanently unsubscribes that method's pipeline: the error
  handler runs once, and from then on the lane is dead — later calls to that
  method do nothing.  Each lane therefore carries a dead flag, set by its
  error transition and guarding its call transition.  A trace of emitted API
  calls is recorded so that "no second API call is made" style properties can
  be stated;
* the reducer-based orders store (`orders-reducer` / `orders-actions`), the
  competing implementation mentioned by the spec.

Numbers are modelled as exact rationals.
-/

namespace MiniCrm

/-- An order record (`OrderDetail` in the source): server id plus the four
input fields and the two derived totals. -/
structure Order where
  id : Nat
  customer : String
  nbDays : ℚ
  tjm : ℚ
  tauxTva : ℚ
  totalHt : ℚ
  totalTtc : ℚ
deriving DecidableEq, Repr

/-- `CreateOrder`: the create request, no id and no totals. -/
structure CreateOrder where
  customer : String
  nbDays : ℚ
  tjm : ℚ
  tauxTva : ℚ
deriving DecidableEq, Repr

/-- `UpdateOrder`: the update request, same fields plus the target id. -/
structure UpdateOrder where
  id : Nat
  customer : String
  nbDays : ℚ
  tjm : ℚ
  tauxTva : ℚ
deriving DecidableEq, Repr

/-- The payload `OrdersService.create` posts (`Omit<OrderDetail,'id'>`):
the request fields plus the locally computed totals. -/
structure OrderPayload where
  customer : String
  nbDays : ℚ
  tjm : ℚ
  tauxTva : ℚ
  totalHt : ℚ
  totalTtc : ℚ
deriving DecidableEq, Repr

/-- `OrdersService.create`: `totalHt = nbDays * tjm`,
`totalTtc = totalHt * (1 + tauxTva / 100)`, spread over the request data. -/
def createPayload (r : CreateOrder) : OrderPayload :=
  let totalHt := r.nbDays * r.tjm
  let totalTtc := totalHt * (1 + r.tauxTva / 100)
  { customer := r.customer, nbDays := r.nbDays, tjm := r.tjm,
    tauxTva := r.tauxTva, totalHt := totalHt, totalTtc := totalTtc }

/-- `OrdersService.update`: same totals computation, payload keeps the id. -/
def updatePayload (r : UpdateOrder) : Order :=
  let totalHt := r.nbDays * r.tjm
  let totalTtc := totalHt * (1 + r.tauxTva / 100)
  { id := r.id, customer := r.customer, nbDays := r.nbDays, tjm := r.tjm,
    tauxTva := r.tauxTva, totalHt := totalHt, totalTtc := totalTtc }

/-- `error.message || fallback` from the error handlers: the fallback is used
only when the message is falsy (empty). -/
def msgOr (m fallback : String) : String :=
  if m = "" then fallback else m

/-- Outcome of an API call as observed by `tapResponse`. -/
inductive ApiResult (α : Type) where
  | ok (value : α)
  | err (msg : String)
deriving DecidableEq, Repr

/-- One network request actually emitted by the store (requests dropped by an
`exhaustMap` lane never appear here). -/
inductive ApiCall where
  | list
  | getById (id : Nat)
  | create (req : CreateOrder)
  | update (req : UpdateOrder)
  | delete (id : Nat)
deriving DecidableEq, Repr

/-- State of the signal store: the `OrdersState` fields plus the concurrency
bookkeeping of the five rxjs lanes and the trace of emitted API calls.

Each method pipes `tapResponse` OUTSIDE its flattening operator
(`exhaustMap` / `switchMap`), so when an inner API observable errors, the
error propagates past the flattening operator; `tapResponse` runs the error
handler once, but the method's subscription to its source has already been
torn down — that rxMethod is permanently dead and later calls to it do
nothing at all.  The `dead*` flags record this: a call event on a dead lane
is a no-op (no `patchState`, no API call). -/
structure StoreState where
  orders : List Order
  loading : Bool
  error : Option String
  selectedOrder : Option Order
  pendingAdd : Option CreateOrder
  pendingUpdate : Option UpdateOrder
  pendingDelete : Option Nat
  pendingSelect : Option Nat
  pendingLoad : Option Nat
  nextTicket : Nat
  apiCalls : List ApiCall
  deadLoad : Bool
  deadAdd : Bool
  deadUpdate : Bool
  deadDelete : Bool
  deadSelect : Bool
deriving DecidableEq, Repr

/-- The store's `initialState` (empty defaults), with all lanes idle and
live. -/
def initialStoreState : StoreState :=
  { orders := [], loading := false, error := none, selectedOrder := none,
    pendingAdd := none, pendingUpdate := none, pendingDelete := none,
    pendingSelect := none, pendingLoad := none, nextTicket := 0,
    apiCalls := [],
    deadLoad := false, deadAdd := false, deadUpdate := false,
    deadDelete := false, deadSelect := false }

/-- Events: a consumer call of one of the five operations, or the resolution
of an in-flight API call.  A `resolveLoad` carries the ticket of the call it
answers; resolutions of lanes that are not in flight (or of a superseded load
ticket) are no-ops, which models a discarded response. -/
inductive Event where
  | callLoad
  | resolveLoad (t : Nat) (r : ApiResult (List Order))
  | callAdd (req : CreateOrder)
  | resolveAdd (r : ApiResult Order)
  | callUpdate (req : UpdateOrder)
  | resolveUpdate (r : ApiResult Order)
  | callDelete (id : Nat)
  | resolveDelete (r : ApiResult Unit)
  | callSelect (id : Nat)
  | resolveSelect (r : ApiResult Order)
deriving DecidableEq, Repr

/-- One transition of the signal store, transcribing
`orders-signal-store.ts` method by method.  A call event on a dead lane is a
no-op: the rxMethod's pipeline was unsubscribed by an earlier inner error.
An error resolution runs the `tapResponse` error handler once (patching
`loading` and `error`) and kills the lane. -/
def step (s : StoreState) : Event → StoreState
  | .callLoad =>
      if s.deadLoad then s
      else
        { s with loading := true, error := none,
                 pendingLoad := some s.nextTicket,
                 nextTicket := s.nextTicket + 1,
                 apiCalls := s.apiCalls ++ [.list] }
  | .resolveLoad t r =>
      if s.pendingLoad = some t then
        match r with
        | .ok orders =>
            { s with orders := orders, loading := false, error := none,
                     pendingLoad := none }
        | .err m =>
            { s with loading := false,
                     error := some (msgOr m "Erreur lors du chargement des commandes"),
                     pendingLoad := none, deadLoad := true }
      else s
  | .callAdd req =>
      if s.deadAdd then s
      else
        match s.pendingAdd with
        | some _ => s
        | none =>
            { s with loading := true, error := none, pendingAdd := some req,
                     apiCalls := s.apiCalls ++ [.create req] }
  | .resolveAdd r =>
      match s.pendingAdd with
      | none => s
      | some _ =>
          match r with
          | .ok o =>
              { s with orders := s.orders ++ [o], loading := false,
                       error := none, pendingAdd := none }
          | .err m =>
              { s with loading := false,
                       error := some (msgOr m "Erreur lors de la création de la commande"),
                       pendingAdd := none, deadAdd := true }
  | .callUpdate req =>
      if s.deadUpdate then s
      else
        match s.pendingUpdate with
        | some _ => s
        | none =>
            { s with loading := true, error := none, pendingUpdate := some req,
                     apiCalls := s.apiCalls ++ [.update req] }
  | .resolveUpdate r =>
      match s.pendingUpdate with
      | none => s
      | some _ =>
          match r with
          | .ok u =>
              { s with orders := s.orders.map
                         (fun o => if o.id = u.id then u else o),
                       selectedOrder := none, loading := false, error := none,
                       pendingUpdate := none }
          | .err m =>
              { s with loading := false,
                       error := some (msgOr m "Erreur lors de la mise à jour de la commande"),
                       pendingUpdate := none, deadUpdate := true }
  | .callDelete i =>
      if s.deadDelete then s
      else
        match s.pendingDelete with
        | some _ => s
        | none =>
            { s with loading := true, error := none, pendingDelete := some i,
                     apiCalls := s.apiCalls ++ [.delete i] }
  | .resolveDelete r =>
      match s.pendingDelete with
      | none => s
      | some i =>
          match r with
          | .ok _ =>
              { s with orders := s.orders.filter (fun o => o.id != i),
                       selectedOrder := none, loading := false, error := none,
                       pendingDelete := none }
          | .err m =>
              { s with loading := false,
                       error := some (msgOr m "Erreur lors de la suppression de la commande"),
                       pendingDelete := none, deadDelete := true }
  | .callSelect i =>
      if s.deadSelect then s
      else
        match s.pendingSelect with
        | some _ => s
        | none =>
            match s.orders.find? (fun o => o.id == i) with
            | some o => { s with selectedOrder := some o }
            | none =>
                { s with loading := true, error := none,
                         pendingSelect := some i,
                         apiCalls := s.apiCalls ++ [.getById i] }
  | .resolveSelect r =>
      match s.pendingSelect with
      | none => s
      | some _ =>
          match r with
          | .ok o =>
              { s with selectedOrder := some o, loading := false,
                       error := none, pendingSelect := none }
          | .err m =>
              { s with loading := false, selectedOrder := none,
                       error := some (msgOr m "Commande non trouvée"),
                       pendingSelect := none, deadSelect := true }

/-- Run a list of events from a state. -/
def run (s : StoreState) : List Event → StoreState
  | [] => s
  | e :: rest => run (step s e) rest

/-- Actions of the reducer-based store (`orders-actions.ts`). -/
inductive OrdersAction where
  | addOrder (order : CreateOrder)
  | orderAdded (order : Order)
  | updateOrder (order : UpdateOrder)
  | orderUpdated (order : Order)
  | deleteOrder (id : Nat)
  | loadOrders
  | ordersLoaded (orders : List Order)
  | ordersError (error : String)
deriving DecidableEq, Repr

/-- The `OrdersState` shape shared by both stores (`orders-state.ts`). -/
structure ReducerState where
  orders : List Order
  loading : Bool
  error : Option String
  selectedOrder : Option Order
deriving DecidableEq, Repr

/-- `ordersReducer` from the reducer-based store: it handles `orderAdded`,
`orderUpdated` and `deleteOrder`; every other action leaves the state
unchanged (`createReducer` default). -/
def ordersReducer (s : ReducerState) : OrdersAction → ReducerState
  | .orderAdded o =>
      { s with orders := s.orders ++ [o], error := none, selectedOrder := none }
  | .orderUpdated o =>
      { s with selectedOrder := none,
               orders := (s.orders.filter (fun x => x.id != o.id)) ++ [o],
               error := none }
  | .deleteOrder i =>
      { s with orders := s.orders.filter (fun x => x.id != i) }
  | _ => s

end MiniCrm

namespace MiniCrm

/-! ### Helper lemmas -/

lemma ids_map_update (l : List Order) (u : Order) :
    ((l.map (fun o => if o.id = u.id then u else o)).map (fun o => o.id))
      = l.map (fun o => o.id) := by
  induction l with
  | nil => rfl
  | cons a t ih =>
      by_cases h : a.id = u.id <;> simp [h, ih]

lemma map_update_id_eq_self (l : List Order) (u : Order)
    (h : ∀ o ∈ l, o.id ≠ u.id) :
    l.map (fun o => if o.id = u.id then u else o) = l := by
  induction l with
  | nil => rfl
  | cons a t ih =>
      simp only [List.map_cons, List.cons.injEq]
      constructor
      · rw [if_neg (h a (List.mem_cons_self a t))]
      · exact ih fun o ho => h o (List.mem_cons_of_mem _ ho)

/-! ### Concrete fixtures used by witnesses and counterexamples -/

/-- The spec's representative create request. -/
def reqAcme : CreateOrder :=
  { customer := "Acme", nbDays := 5, tjm := 650, tauxTva := 20 }

/-- The order the spec expects the representative create to produce. -/
def ordAcme : Order :=
  { id := 1, customer := "Acme", nbDays := 5, tjm := 650, tauxTva := 20,
    totalHt := 3250, totalTtc := 3900 }

/-- A second order record carrying the same id as `ordAcme`. -/
def ordClone : Order :=
  { id := 1, customer := "Bob", nbDays := 2, tjm := 100, tauxTva := 0,
    totalHt := 200, totalTtc := 200 }

/-- An order with a distinct id. -/
def ordOther : Order :=
  { id := 2, customer := "Zed", nbDays := 3, tjm := 400, tauxTva := 10,
    totalHt := 1200, totalTtc := 1320 }

/-- The update request matching `ordAcme`. -/
def updAcme : UpdateOrder :=
  { id := 1, customer := "Acme", nbDays := 5, tjm := 650, tauxTva := 20 }

/-! ### C1 — derived totals on the create and update paths -/

/-- Claim C1: for every create or update submission, the payload computed
before sending satisfies `totalHt = nbDays * tjm` and
`totalTtc = totalHt * (1 + tauxTva / 100)`; at `nbDays = 5`, `tjm = 650`,
`tauxTva = 20` this gives `totalHt = 3250` and `totalTtc = 3900`; the create
path and the update path apply the same formula. -/
theorem C1_totals_both_paths (r : CreateOrder) (u : UpdateOrder) :
    (createPayload r).totalHt = r.nbDays * r.tjm ∧
    (createPayload r).totalTtc = (createPayload r).totalHt * (1 + r.tauxTva / 100) ∧
    (updatePayload u).totalHt = u.nbDays * u.tjm ∧
    (updatePayload u).totalTtc = (updatePayload u).totalHt * (1 + u.tauxTva / 100) ∧
    (createPayload reqAcme).totalHt = 3250 ∧
    (createPayload reqAcme).totalTtc = 3900 ∧
    (createPayload { customer := u.customer, nbDays := u.nbDays, tjm := u.tjm,
                     tauxTva := u.tauxTva }).totalHt = (updatePayload u).totalHt ∧
    (createPayload { customer := u.customer, nbDays := u.nbDays, tjm := u.tjm,
                     tauxTva := u.tauxTva }).totalTtc = (updatePayload u).totalTtc := by
  refine ⟨rfl, rfl, rfl, rfl, ?_, ?_, rfl, rfl⟩
  · norm_num [createPayload, reqAcme]
  · norm_num [createPayload, reqAcme]

/-! ### C4 — latest-wins on loadOrders -/

/-- Claim C4: `loadOrders` is latest-wins: when it is issued twice in
succession on the live load lane and the first response resolves after the
second, the first response is discarded (its resolution is a no-op) and the
final `orders` equals the second response. -/
theorem C4_load_latest_wins (s : StoreState) (L1 L2 : List Order)
    (hLive : s.deadLoad = false) :
    (run s [.callLoad, .callLoad,
            .resolveLoad (s.nextTicket + 1) (.ok L2),
            .resolveLoad s.nextTicket (.ok L1)]).orders = L2 ∧
    run s [.callLoad, .callLoad,
           .resolveLoad (s.nextTicket + 1) (.ok L2),
           .resolveLoad s.nextTicket (.ok L1)]
      = run s [.callLoad, .callLoad, .resolveLoad (s.nextTicket + 1) (.ok L2)] := by
  simp [run, step, hLive]

/-- Witness for C4: from the initial store, two loads whose responses
resolve out of order leave the second response as the final collection. -/
theorem C4_load_latest_wins_witness :
    initialStoreState.deadLoad = false ∧
    (run initialStoreState
        [.callLoad, .callLoad, .resolveLoad 1 (.ok [ordOther]),
         .resolveLoad 0 (.ok [ordClone])]).orders = [ordOther] :=
  ⟨rfl, (C4_load_latest_wins initialStoreState [ordClone] [ordOther] rfl).1⟩

end MiniCrm

namespace MiniCrm

/-! ### C3 — exhaust policy on the mutating operations -/

/-- Claim C3 counterexample: with an `addOrder` in flight, a `deleteOrder`
call is NOT dropped — the store emits a second API call (the delete), so the
three mutating operations do not share one exhaust lane. -/
theorem C3_cex_delete_not_dropped :
    (run initialStoreState [.callAdd reqAcme, .callDelete 1]).apiCalls
        = [.create reqAcme, .delete 1] ∧
    (run initialStoreState [.callAdd reqAcme, .callDelete 1]).apiCalls
        ≠ [.create reqAcme] := by
  decide

/-- Claim C3 (amended): each of `addOrder`, `updateOrder` and `deleteOrder`
has its own exhaustMap lane, in service until that lane's first API error.
On a live, in-flight add lane a new `addOrder` is dropped silently (no
second create call, no state change, no error), so `addOrder(A);
addOrder(B)` emits exactly one create call, for `A`; but `deleteOrder` and
`updateOrder` calls issued while the `addOrder` is in flight are not dropped
(on their own live lanes) and emit their API calls; a lane killed by an
earlier error accepts no further calls at all. -/
theorem C3_exhaust_per_lane (s : StoreState) (A B : CreateOrder)
    (u : UpdateOrder) (i : Nat)
    (hA : s.pendingAdd = none) (hD : s.pendingDelete = none)
    (hU : s.pendingUpdate = none)
    (hAd : s.deadAdd = false) (hDd : s.deadDelete = false)
    (hUd : s.deadUpdate = false) :
    run s [.callAdd A, .callAdd B] = run s [.callAdd A] ∧
    (run s [.callAdd A, .callAdd B]).apiCalls = s.apiCalls ++ [.create A] ∧
    (run s [.callAdd A, .callDelete i]).apiCalls
        = s.apiCalls ++ [.create A, .delete i] ∧
    (run s [.callAdd A, .callUpdate u]).apiCalls
        = s.apiCalls ++ [.create A, .update u] ∧
    (∀ s' : StoreState, s'.deadAdd = true → step s' (.callAdd B) = s') := by
  refine ⟨?_, ?_, ?_, ?_, fun s' h => by simp [step, h]⟩ <;>
    simp [run, step, hA, hD, hU, hAd, hDd, hUd]

/-- Witness for C3: the amended statement at concrete inputs. -/
theorem C3_exhaust_per_lane_witness :
    initialStoreState.pendingAdd = none ∧
    initialStoreState.pendingDelete = none ∧
    initialStoreState.pendingUpdate = none ∧
    initialStoreState.deadAdd = false ∧
    (run initialStoreState [.callAdd reqAcme, .callAdd reqAcme]).apiCalls
        = initialStoreState.apiCalls ++ [.create reqAcme] :=
  ⟨rfl, rfl, rfl, rfl,
    (C3_exhaust_per_lane initialStoreState reqAcme reqAcme updAcme 1
      rfl rfl rfl rfl rfl rfl).2.1⟩

/-! ### C5 — loadOrders success transition -/

/-- The deduplication the spec describes for the load success path:
"deduplicated by `id`, last value wins if duplicates occur".  This definition
follows the spec's words; the signal store itself has no counterpart (it
assigns the response array wholesale). -/
def specDedupByIdLastWins : List Order → List Order
  | [] => []
  | o :: rest =>
      if rest.any (fun x => x.id == o.id) then specDedupByIdLastWins rest
      else o :: specDedupByIdLastWins rest

/-- Claim C5 counterexample: a load response containing two records with the
same id is stored verbatim by the success handler, not deduplicated
last-wins as the claim states. -/
theorem C5_cex_no_dedup :
    (run { initialStoreState with pendingLoad := some 0 }
        [.resolveLoad 0 (.ok [ordClone, ordAcme])]).orders
      = [ordClone, ordAcme] ∧
    (run { initialStoreState with pendingLoad := some 0 }
        [.resolveLoad 0 (.ok [ordClone, ordAcme])]).orders
      ≠ specDedupByIdLastWins [ordClone, ordAcme] := by
  decide

/-- Claim C5 (amended): on `loadOrders` success the store replaces `orders`
wholesale with the returned sequence exactly as returned — no deduplication
by id is performed — and sets `loading` to false (and `error` to null). -/
theorem C5_load_success_wholesale (s : StoreState) (t : Nat) (L : List Order)
    (h : s.pendingLoad = some t) :
    (step s (.resolveLoad t (.ok L))).orders = L ∧
    (step s (.resolveLoad t (.ok L))).loading = false ∧
    (step s (.resolveLoad t (.ok L))).error = none := by
  simp [step, h]

/-- Witness for C5: the amended statement at a concrete state and response. -/
theorem C5_load_success_wholesale_witness :
    ({ initialStoreState with pendingLoad := some 0 } : StoreState).pendingLoad
        = some 0 ∧
    (step { initialStoreState with pendingLoad := some 0 }
        (.resolveLoad 0 (.ok [ordClone, ordAcme]))).orders = [ordClone, ordAcme] :=
  ⟨rfl,
    (C5_load_success_wholesale { initialStoreState with pendingLoad := some 0 }
      0 [ordClone, ordAcme] rfl).1⟩

/-! ### C6 — error cleared at the start of an operation -/

end MiniCrm

namespace MiniCrm

/-! ### C7 — failure transitions -/

/-- Claim C7: on failure of whichever of `loadOrders`, `addOrder`,
`updateOrder` or `deleteOrder` is in flight, the `orders` collection is left
exactly as before, `error` is set to a message derived from the failure (its
message, or the operation's fallback text when the message is empty), and
`loading` is reset to false.  Each operation's failure transition is stated
under only that operation's own in-flight hypothesis. -/
theorem C7_failure_transitions (s : StoreState) (t : Nat) (ra : CreateOrder)
    (ru : UpdateOrder) (i : Nat) (m : String) :
    (s.pendingLoad = some t →
      (step s (.resolveLoad t (.err m))).orders = s.orders ∧
      (step s (.resolveLoad t (.err m))).loading = false ∧
      (step s (.resolveLoad t (.err m))).error
        = some (msgOr m "Erreur lors du chargement des commandes")) ∧
    (s.pendingAdd = some ra →
      (step s (.resolveAdd (.err m))).orders = s.orders ∧
      (step s (.resolveAdd (.err m))).loading = false ∧
      (step s (.resolveAdd (.err m))).error
        = some (msgOr m "Erreur lors de la création de la commande")) ∧
    (s.pendingUpdate = some ru →
      (step s (.resolveUpdate (.err m))).orders = s.orders ∧
      (step s (.resolveUpdate (.err m))).loading = false ∧
      (step s (.resolveUpdate (.err m))).error
        = some (msgOr m "Erreur lors de la mise à jour de la commande")) ∧
    (s.pendingDelete = some i →
      (step s (.resolveDelete (.err m))).orders = s.orders ∧
      (step s (.resolveDelete (.err m))).loading = false ∧
      (step s (.resolveDelete (.err m))).error
        = some (msgOr m "Erreur lors de la suppression de la commande")) := by
  refine ⟨fun hL => ?_, fun hA => ?_, fun hU => ?_, fun hD => ?_⟩
  · simp [step, hL]
  · simp [step, hA]
  · simp [step, hU]
  · simp [step, hD]

/-- A state with only a `loadOrders` in flight. -/
def loadPendingState : StoreState :=
  { initialStoreState with
      orders := [ordAcme], loading := true, pendingLoad := some 0 }

/-- A state with only an `addOrder` in flight. -/
def addPendingState : StoreState :=
  { initialStoreState with
      orders := [ordAcme], loading := true, pendingAdd := some reqAcme }

/-- Witness for C7: a `loadOrders` failing while nothing else is in flight
leaves `orders` as it was and resets `loading`; likewise an `addOrder`
failing alone. -/
theorem C7_failure_transitions_witness :
    loadPendingState.pendingLoad = some 0 ∧
    (step loadPendingState (.resolveLoad 0 (.err ""))).orders
        = loadPendingState.orders ∧
    (step loadPendingState (.resolveLoad 0 (.err ""))).loading = false ∧
    addPendingState.pendingAdd = some reqAcme ∧
    (step addPendingState (.resolveAdd (.err ""))).loading = false :=
  ⟨rfl,
    ((C7_failure_transitions loadPendingState 0 reqAcme updAcme 1 "").1 rfl).1,
    ((C7_failure_transitions loadPendingState 0 reqAcme updAcme 1 "").1
      rfl).2.1,
    rfl,
    ((C7_failure_transitions addPendingState 0 reqAcme updAcme 1 "").2.1
      rfl).2.1⟩

/-! ### C8 — selectOrder -/

/-- A store holding the single order `ordAcme`, all lanes idle and live. -/
def oneOrderState : StoreState := { initialStoreState with orders := [ordAcme] }

/-- Claim C8 counterexample: after one remote select failure the select
rxMethod is dead (`tapResponse` sits outside `exhaustMap`), so a later
`selectOrder` for id 1 — present in `orders` — sets nothing: the claim's
unqualified local-path guarantee fails. -/
theorem C8_cex_dead_select_lane :
    (run oneOrderState
        [.callSelect 9, .resolveSelect (.err ""), .callSelect 1]).selectedOrder
        = none ∧
    (run oneOrderState
        [.callSelect 9, .resolveSelect (.err ""), .callSelect 1]).selectedOrder
        ≠ some ordAcme := by
  decide

/-- Claim C8 (amended): provided the select lane is live (no earlier
get-by-id failure) and idle, `selectOrder(id)` for an id present in `orders`
sets `selectedOrder` to that member synchronously and changes nothing else —
in particular no API call is emitted; for an absent id it sets
`loading := true`, `error := null` and emits exactly one get-by-id call;
failure of that remote call sets `selectedOrder` to null and kills the lane,
after which any further `selectOrder` call has no effect. -/
theorem C8_select_local_vs_remote (s : StoreState) (i : Nat)
    (hS : s.pendingSelect = none) (hLive : s.deadSelect = false) :
    (∀ o, s.orders.find? (fun x => x.id == i) = some o →
        step s (.callSelect i) = { s with selectedOrder := some o }) ∧
    (s.orders.find? (fun x => x.id == i) = none →
        step s (.callSelect i)
          = { s with loading := true, error := none, pendingSelect := some i,
                     apiCalls := s.apiCalls ++ [.getById i] }) ∧
    (∀ m s', s'.pendingSelect = some i →
        (step s' (.resolveSelect (.err m))).selectedOrder = none ∧
        (step s' (.resolveSelect (.err m))).loading = false ∧
        (step s' (.resolveSelect (.err m))).deadSelect = true) ∧
    (∀ s' : StoreState, s'.deadSelect = true → step s' (.callSelect i) = s') := by
  refine ⟨?_, ?_, ?_, ?_⟩
  · intro o ho
    simp [step, hS, hLive, ho]
  · intro hf
    simp [step, hS, hLive, hf]
  · intro m s' hp
    simp [step, hp]
  · intro s' h
    simp [step, h]

/-- Witness for C8: at a concrete one-element store with a live idle select
lane, selecting the present id `1` sets `selectedOrder` to that member with
no other change; selecting the absent id `9` emits one get-by-id call. -/
theorem C8_select_local_vs_remote_witness :
    oneOrderState.pendingSelect = none ∧
    oneOrderState.deadSelect = false ∧
    oneOrderState.orders.find? (fun x => x.id == 1) = some ordAcme ∧
    step oneOrderState (.callSelect 1)
        = { oneOrderState with selectedOrder := some ordAcme } ∧
    step oneOrderState (.callSelect 9)
        = { oneOrderState with
              loading := true, error := none,
              pendingSelect := some 9, apiCalls := [.getById 9] } := by
  refine ⟨rfl, rfl, by decide, ?_, ?_⟩
  · exact (C8_select_local_vs_remote oneOrderState 1 rfl rfl).1 ordAcme
      (by decide)
  · exact (C8_select_local_vs_remote oneOrderState 9 rfl rfl).2.1 (by decide)

/-! ### C9 — divergence of the two stores on delete -/

/-- Claim C9: the reducer-based store's `deleteOrder` transition leaves
`selectedOrder` unchanged, while the signal store's successful `deleteOrder`
sets it to null; at any state whose selection is non-null the two disagree,
so the two implementations are not equivalent on delete. -/
theorem C9_delete_divergence (s : ReducerState) (i : Nat) (s' : StoreState)
    (o : Order) (hp : s'.pendingDelete = some i) (ho : s.selectedOrder = some o) :
    (ordersReducer s (.deleteOrder i)).selectedOrder = s.selectedOrder ∧
    (step s' (.resolveDelete (.ok ()))).selectedOrder = none ∧
    (ordersReducer s (.deleteOrder i)).selectedOrder
        ≠ (step s' (.resolveDelete (.ok ()))).selectedOrder := by
  refine ⟨rfl, ?_, ?_⟩
  · simp [step, hp]
  · simp [step, ordersReducer, hp, ho]

/-- A reducer-store state with a non-null selection. -/
def selReducerState : ReducerState :=
  { orders := [ordAcme], loading := false, error := none,
    selectedOrder := some ordAcme }

/-- A signal-store state with a delete of id 1 in flight. -/
def deletingState : StoreState :=
  { initialStoreState with orders := [ordAcme], pendingDelete := some 1 }

/-- Witness for C9: concrete states for both stores where delete keeps the
reducer's selection and clears the signal store's. -/
theorem C9_delete_divergence_witness :
    selReducerState.selectedOrder = some ordAcme ∧
    deletingState.pendingDelete = some 1 ∧
    (ordersReducer selReducerState (.deleteOrder 1)).selectedOrder
      ≠ (step deletingState (.resolveDelete (.ok ()))).selectedOrder :=
  ⟨rfl, rfl,
    (C9_delete_divergence selReducerState 1 deletingState ordAcme rfl rfl).2.2⟩

/-! ### C10 — frame of updateOrder success -/

/-- Claim C10: when the signal store's `updateOrder` succeeds (the returned
order carrying the request's id) and the id matches no member of `orders`,
the collection is left exactly unchanged while `selectedOrder` is still
cleared to null; and whatever the id, every element whose id differs from it
is unchanged at its position. -/
theorem C10_update_success_frame (s : StoreState) (r : UpdateOrder) (u : Order)
    (hp : s.pendingUpdate = some r) (hid : u.id = r.id) :
    ((∀ o ∈ s.orders, o.id ≠ r.id) →
        (step s (.resolveUpdate (.ok u))).orders = s.orders) ∧
    (step s (.resolveUpdate (.ok u))).selectedOrder = none ∧
    (∀ n, (hn : n < s.orders.length) → (s.orders.get ⟨n, hn⟩).id ≠ r.id →
        (step s (.resolveUpdate (.ok u))).orders[n]?
          = some (s.orders.get ⟨n, hn⟩)) := by
  refine ⟨?_, by simp [step, hp], ?_⟩
  · intro h
    simp only [step, hp]
    exact map_update_id_eq_self s.orders u fun o ho => hid ▸ h o ho
  · intro n hn hne
    have hne' : s.orders[n].id ≠ u.id := by
      rw [hid]; simpa using hne
    simp only [step, hp, List.getElem?_map, List.getElem?_eq_getElem hn]
    simp [hne']

/-- A signal-store state holding only `ordOther` (id 2), with an update of
id 1 in flight and a non-null selection. -/
def updatingState : StoreState :=
  { initialStoreState with
      orders := [ordOther],
      pendingUpdate := some updAcme, selectedOrder := some ordOther }

/-- Witness for C10: a concrete state whose single order does not match the
update request's id: the collection is unchanged and the selection cleared. -/
theorem C10_update_success_frame_witness :
    updatingState.pendingUpdate = some updAcme ∧
    ordAcme.id = updAcme.id ∧
    (step updatingState (.resolveUpdate (.ok ordAcme))).orders = [ordOther] ∧
    (step updatingState (.resolveUpdate (.ok ordAcme))).selectedOrder = none := by
  refine ⟨rfl, rfl, ?_, ?_⟩
  · exact (C10_update_success_frame updatingState updAcme ordAcme rfl rfl).1
      (by decide)
  · exact (C10_update_success_frame updatingState updAcme ordAcme rfl rfl).2.1

end MiniCrm

namespace MiniCrm

/-! ### C2 — uniqueness of ids in `orders` -/

/-- No two entries of the collection share an `id`. -/
def uniqueIds (l : List Order) : Prop := (l.map (fun o => o.id)).Nodup

instance uniqueIdsDecidable (l : List Order) : Decidable (uniqueIds l) := by
  unfold uniqueIds
  infer_instance

/-- The events of the `addOrder` / `updateOrder` / `deleteOrder` family. -/
def isMutateEvent : Event → Bool
  | .callAdd _ => true
  | .resolveAdd _ => true
  | .callUpdate _ => true
  | .resolveUpdate _ => true
  | .callDelete _ => true
  | .resolveDelete _ => true
  | _ => false

/-- An event is a fresh-id event at state `s` when, if it is a create success
that will actually be applied (an add is in flight), the returned order's id
is not already present in `orders`. -/
def freshAddOk (s : StoreState) : Event → Bool
  | .resolveAdd (.ok o) =>
      s.pendingAdd.isNone || s.orders.all (fun x => x.id != o.id)
  | _ => true

/-- Every create success along the trace carries an id that is fresh with
respect to the `orders` collection at the moment it is applied. -/
def freshAdds : StoreState → List Event → Bool
  | _, [] => true
  | s, e :: rest => freshAddOk s e && freshAdds (step s e) rest

lemma step_uniqueIds (s : StoreState) (e : Event)
    (hm : isMutateEvent e = true) (hf : freshAddOk s e = true)
    (h : uniqueIds s.orders) : uniqueIds (step s e).orders := by
  cases e with
  | callLoad => simp [isMutateEvent] at hm
  | resolveLoad t r => simp [isMutateEvent] at hm
  | callSelect i => simp [isMutateEvent] at hm
  | resolveSelect r => simp [isMutateEvent] at hm
  | callAdd r =>
      cases hd : s.deadAdd with
      | true => simpa [step, hd] using h
      | false => cases hp : s.pendingAdd <;> simpa [step, hd, hp] using h
  | callUpdate r =>
      cases hd : s.deadUpdate with
      | true => simpa [step, hd] using h
      | false => cases hp : s.pendingUpdate <;> simpa [step, hd, hp] using h
  | callDelete i =>
      cases hd : s.deadDelete with
      | true => simpa [step, hd] using h
      | false => cases hp : s.pendingDelete <;> simpa [step, hd, hp] using h
  | resolveAdd r =>
      cases hp : s.pendingAdd with
      | none => simpa [step, hp] using h
      | some a =>
          cases r with
          | err m => simpa [step, hp] using h
          | ok o =>
              have hfresh : s.orders.all (fun x => x.id != o.id) = true := by
                simpa [freshAddOk, hp] using hf
              have hnotmem : o.id ∉ s.orders.map (fun x => x.id) := by
                intro hmem
                obtain ⟨x, hx, hxid⟩ := List.mem_map.mp hmem
                have := List.all_eq_true.mp hfresh x hx
                simp only [bne_iff_ne, ne_eq] at this
                exact this hxid
              unfold uniqueIds at h ⊢
              simp only [step, hp]
              rw [List.map_append, List.nodup_append_comm]
              simpa [List.nodup_cons] using And.intro hnotmem h
  | resolveUpdate r =>
      cases hp : s.pendingUpdate with
      | none => simpa [step, hp] using h
      | some a =>
          cases r with
          | err m => simpa [step, hp] using h
          | ok u =>
              unfold uniqueIds at h ⊢
              simp only [step, hp]
              rw [ids_map_update]
              exact h
  | resolveDelete r =>
      cases hp : s.pendingDelete with
      | none => simpa [step, hp] using h
      | some i =>
          cases r with
          | err m => simpa [step, hp] using h
          | ok v =>
              unfold uniqueIds at h ⊢
              simp only [step, hp]
              exact h.sublist ((List.filter_sublist s.orders).map (fun x => x.id))

/-- Claim C2 counterexample: the store appends a create success verbatim, so
two successful `addOrder` calls whose responses reuse the same server id
leave two entries with id 1 in `orders` — the uniqueness invariant does not
hold for arbitrary API responses. -/
theorem C2_cex_duplicate_create_ids :
    ¬ uniqueIds (run initialStoreState
        [.callAdd reqAcme, .resolveAdd (.ok ordAcme), .callAdd reqAcme,
         .resolveAdd (.ok ordClone)]).orders := by
  decide

/-- Claim C2 (amended): after any sequence of `addOrder` / `updateOrder` /
`deleteOrder` events, each allowed to succeed or fail, `orders` never
contains two entries with the same id — provided every applied create
success returns an id not already present in `orders` at that moment
(server-assigned fresh ids).  Update successes and deletes preserve the
invariant unconditionally. -/
theorem C2_unique_ids_preserved (s : StoreState) (evs : List Event)
    (hm : evs.all isMutateEvent = true) (hf : freshAdds s evs = true)
    (h : uniqueIds s.orders) : uniqueIds (run s evs).orders := by
  induction evs generalizing s with
  | nil => simpa [run] using h
  | cons e rest ih =>
      rw [List.all_cons, Bool.and_eq_true] at hm
      rw [freshAdds, Bool.and_eq_true] at hf
      simp only [run]
      exact ih (step s e) hm.2 hf.2 (step_uniqueIds s e hm.1 hf.1 h)

/-- Witness for C2: a concrete trace of two creates with fresh ids and a
delete, starting from the empty store, keeps the ids unique. -/
theorem C2_unique_ids_preserved_witness :
    ([Event.callAdd reqAcme, .resolveAdd (.ok ordAcme), .callAdd reqAcme,
      .resolveAdd (.ok ordOther), .callDelete 1,
      .resolveDelete (.ok ())].all isMutateEvent = true) ∧
    freshAdds initialStoreState
      [.callAdd reqAcme, .resolveAdd (.ok ordAcme), .callAdd reqAcme,
       .resolveAdd (.ok ordOther), .callDelete 1,
       .resolveDelete (.ok ())] = true ∧
    uniqueIds (run initialStoreState
      [.callAdd reqAcme, .resolveAdd (.ok ordAcme), .callAdd reqAcme,
       .resolveAdd (.ok ordOther), .callDelete 1,
       .resolveDelete (.ok ())]).orders :=
  ⟨by decide, by decide,
    C2_unique_ids_preserved initialStoreState _ (by decide) (by decide)
      (by decide)⟩

end MiniCrm
